import Mathlib

/-!
Verification of the booking/reservation engine
(`backend/microservicio_reservas`: `app.py`, `core/security.py`, `db/models.py`).

Modelling conventions used throughout this development:

* Wall-clock times of day (`HH:MM`, minute resolution) are modelled as the
  number of minutes since midnight (a `Nat`).
* Calendar dates are modelled by their proleptic-Gregorian ordinal number
  (a `Nat`), exactly as Python's `date.toordinal` (shifted to start at 0):
  comparison of dates corresponds to comparison of ordinals and
  `timedelta(days=1)` corresponds to `+ 1`.
* The `bookings` table is modelled as a `List Booking`; SQLAlchemy queries
  become list traversals, `db.session.commit` of a row mutation becomes a
  pointwise replacement of the row with the matching primary key, and a row
  insert becomes an append with a fresh (autoincremented) primary key.
* The remote Court Registry (`get_court_info`) is modelled by an environment
  function `Int → CourtResponse` describing, for each court id, what the
  single `requests.get` performed by the handler would produce.
* JSON bodies are modelled as records of `Option` fields (`none` = absent);
  Python truthiness of a field (`if not all([...])`, `if new_status:`) is
  modelled by `truthyInt` / `truthyStr` (absent, `0` and `""` are falsy).
-/

/-- A row of the `bookings` table (`db/models.py`, class `Booking`).
Timestamps (`created_at`, `updated_at`) are opaque instants modelled as `Nat`. -/
structure Booking where
  id : Nat
  user_id : Nat
  court_id : Int
  booking_date : Nat
  start_time : Nat
  end_time : Nat
  status : String
  created_at : Nat
  updated_at : Nat
deriving DecidableEq, Repr

/-- Split a character list on every occurrence of the separator `c`
(the behaviour of Python's `str.split(c)`): `n` separators yield `n + 1`
(possibly empty) pieces. -/
def splitOnChar (c : Char) : List Char → List (List Char)
  | [] => [[]]
  | x :: xs =>
    match splitOnChar c xs with
    | [] => if x = c then [[], [x]] else [[x]]
    | y :: ys => if x = c then [] :: y :: ys else (x :: y) :: ys

/-- Read a nonempty all-digit character list as a decimal number. -/
def digitsToNat? (l : List Char) : Option Nat :=
  if l ≠ [] ∧ l.all Char.isDigit then
    some (l.foldl (fun acc c => acc * 10 + (c.toNat - 48)) 0)
  else none

/-- `datetime.strptime(s, "%H:%M").time()`: two colon-separated decimal
fields of at most two digits, hour `0..23`, minute `0..59`, returned as
minutes since midnight. -/
def parseTime (s : String) : Option Nat :=
  match splitOnChar ':' s.toList with
  | [hs, ms] =>
    match digitsToNat? hs, digitsToNat? ms with
    | some h, some m =>
      if hs.length ≤ 2 ∧ ms.length ≤ 2 ∧ h ≤ 23 ∧ m ≤ 59 then some (h * 60 + m)
      else none
    | _, _ => none
  | _ => none

/-- Gregorian leap-year test, as in Python's `calendar.isleap`. -/
def isLeap (y : Nat) : Bool :=
  y % 4 == 0 && (y % 100 != 0 || y % 400 == 0)

/-- Number of days of month `m` in year `y`. -/
def monthLen (y m : Nat) : Nat :=
  if m == 2 then (if isLeap y then 29 else 28)
  else if m == 4 || m == 6 || m == 9 || m == 11 then 30
  else 31

/-- Days in year `y` strictly before month `m`. -/
def daysBeforeMonth (y m : Nat) : Nat :=
  (List.range (m - 1)).foldl (fun acc i => acc + monthLen y (i + 1)) 0

/-- Leap years among `1 .. y-1`. -/
def leapsBefore (y : Nat) : Nat :=
  (y - 1) / 4 - (y - 1) / 100 + (y - 1) / 400

/-- The ordinal number of the date `y-m-d` (Python's `date.toordinal`, shifted
so that year 1, January 1st is day 0). Dates compare and step by days exactly
as their ordinals do. -/
def dateOrdinal (y m d : Nat) : Nat :=
  365 * (y - 1) + leapsBefore y + daysBeforeMonth y m + (d - 1)

/-- The `%d` directive of `strptime`: one or two digits, or — per CPython's
`_strptime` regex `3[01]|[12]\d|0[1-9]|[1-9]| [1-9]` — a space followed by a
nonzero digit (a space-padded day such as `" 9"`). Out-of-range numeric
values are rejected later against the month length, as the `datetime`
constructor does. -/
def parseDayField (l : List Char) : Option Nat :=
  match l with
  | [' ', c] => if '1' ≤ c ∧ c ≤ '9' then some (c.toNat - 48) else none
  | _ =>
    match digitsToNat? l with
    | some d => if l.length ≤ 2 then some d else none
    | none => none

/-- `datetime.strptime(s, "%Y-%m-%d").date()`: three dash-separated fields —
a year of *exactly four* digits (CPython's `%Y` is the regex `\d\d\d\d`), a
month of one or two digits in `1..12`, and a `%d` day field (see
`parseDayField`) valid for that month and year — returned as the date's
ordinal number. -/
def parseDate (s : String) : Option Nat :=
  match splitOnChar '-' s.toList with
  | [ys, ms, ds] =>
    match digitsToNat? ys, digitsToNat? ms, parseDayField ds with
    | some y, some m, some d =>
      if ys.length = 4 ∧ ms.length ≤ 2 ∧
          1 ≤ y ∧ 1 ≤ m ∧ m ≤ 12 ∧ 1 ≤ d ∧ d ≤ monthLen y m then
        some (dateOrdinal y m d)
      else none
    | _, _, _ => none
  | _ => none

/-- Python truthiness of an optional JSON integer field: absent or `0` is falsy. -/
def truthyInt : Option Int → Bool
  | none => false
  | some n => n != 0

/-- Python truthiness of an optional JSON string field: absent or `""` is falsy. -/
def truthyStr : Option String → Bool
  | none => false
  | some s => s != ""

/-- Outcome of the single `requests.get` performed by `get_court_info`:
a network failure / timeout, a non-2xx HTTP response (`raise_for_status`),
or a 2xx JSON body carrying the court's `is_active` flag. -/
inductive CourtResponse
  | netError
  | httpError
  | ok (is_active : Bool)

/-- `get_court_info` (`app.py` lines 21–33): any `RequestException`
(network failure or `raise_for_status` on a non-2xx response) is caught and
turned into `None`; otherwise the handler reads `is_active` from the JSON. -/
def get_court_info : CourtResponse → Option Bool
  | .netError => none
  | .httpError => none
  | .ok b => some b

/-- JSON body of `POST /bookings`. The body may carry a `user_id` field
(or any extra field); the handler never reads it. -/
structure CreateRequest where
  court_id : Option Int
  booking_date : Option String
  start_time : Option String
  end_time : Option String
  user_id : Option Int
deriving DecidableEq, Repr

/-- The HTTP outcome of `create_booking`, one constructor per `return`. -/
inductive CreateResult
  | missingFields
  | badFormat
  | pastDate
  | badRange
  | courtNotFound
  | conflict
  | created (b : Booking)
deriving DecidableEq, Repr

/-- HTTP status code of each `create_booking` outcome. -/
def createStatusCode : CreateResult → Nat
  | .missingFields => 400
  | .badFormat => 400
  | .pastDate => 400
  | .badRange => 400
  | .courtNotFound => 404
  | .conflict => 409
  | .created _ => 201

/-- The autoincremented primary key the database would assign to the next
inserted row. -/
def freshId (store : List Booking) : Nat :=
  store.foldr (fun b m => max b.id m) 0 + 1

/-- The filter of the conflict scan (`app.py` lines 90–97): same court, same
date, status `Confirmada`, and strict interval overlap with the proposed
`[st, et)`. -/
def conflictsWithReq (cid : Int) (bd st et : Nat) (b : Booking) : Bool :=
  decide (b.court_id = cid) && decide (b.booking_date = bd) &&
    decide (b.status = "Confirmada") &&
    decide (b.start_time < et) && decide (b.end_time > st)

/-- The row built by `Booking(...)` in `create_booking` (`app.py` lines
103–110): status `Confirmada`, owner taken from the token claim, primary key
assigned by the database, both timestamps set to `utcnow`. -/
def newBooking (store : List Booking) (uid : Nat) (cid : Int)
    (bd st et now : Nat) : Booking :=
  { id := freshId store, user_id := uid, court_id := cid, booking_date := bd,
    start_time := st, end_time := et, status := "Confirmada",
    created_at := now, updated_at := now }

/-- `create_booking` (`app.py` lines 52–116). `env` is the Court Registry,
`today` is `date.today()`, `user_id_from_token` the verified token claim,
`now` the `utcnow` instant used for the new row's timestamps. Returns the
HTTP outcome and the table after the request. -/
def create_booking (env : Int → CourtResponse) (today : Nat)
    (user_id_from_token : Nat) (now : Nat) (store : List Booking)
    (req : CreateRequest) : CreateResult × List Booking :=
  if truthyInt req.court_id && truthyStr req.booking_date &&
      truthyStr req.start_time && truthyStr req.end_time then
    match parseDate (req.booking_date.getD ""), parseTime (req.start_time.getD ""),
        parseTime (req.end_time.getD "") with
    | some booking_date, some start_time, some end_time =>
      if booking_date < today then (.pastDate, store)
      else if start_time ≥ end_time then (.badRange, store)
      else
        match get_court_info (env (req.court_id.getD 0)) with
        | some true =>
          if store.any (conflictsWithReq (req.court_id.getD 0) booking_date
              start_time end_time) then
            (.conflict, store)
          else
            (.created (newBooking store user_id_from_token (req.court_id.getD 0)
                booking_date start_time end_time now),
             store ++ [newBooking store user_id_from_token (req.court_id.getD 0)
                booking_date start_time end_time now])
        | _ => (.courtNotFound, store)
    | _, _, _ => (.badFormat, store)
  else (.missingFields, store)

/-- JSON body of `PUT /bookings/<id>` (all fields optional). -/
structure UpdateRequest where
  status : Option String
  booking_date : Option String
  start_time : Option String
  end_time : Option String
  court_id : Option Int
deriving DecidableEq, Repr

/-- The error `return`s reachable from inside the `try` block of
`update_booking` (a `ValueError` from `strptime` is caught and mapped to
the format error). -/
inductive UpdateErr
  | badStatus
  | pastDateMove
  | courtNotFound
  | badRange
  | conflict
  | badFormat
deriving DecidableEq, Repr

/-- The HTTP outcome of `update_booking`. -/
inductive UpdateResult
  | notFound
  | forbidden
  | err (e : UpdateErr)
  | ok (b : Booking)
deriving DecidableEq, Repr

/-- HTTP status code of each `update_booking` outcome. -/
def updateStatusCode : UpdateResult → Nat
  | .notFound => 404
  | .forbidden => 403
  | .err .badStatus => 400
  | .err .pastDateMove => 400
  | .err .courtNotFound => 404
  | .err .badRange => 400
  | .err .conflict => 409
  | .err .badFormat => 400
  | .ok _ => 200

/-- The field-by-field mutation phase of `update_booking` (`app.py` lines
172–200): each supplied (truthy) field is validated and written onto the
row in order — status, date, start, end, court — short-circuiting on the
first failure. -/
def applyFields (env : Int → CourtResponse) (today : Nat) (role : String)
    (req : UpdateRequest) (booking : Booking) : Except UpdateErr Booking :=
  match (if truthyStr req.status then
          if req.status.getD "" = "Confirmada" ∨ req.status.getD "" = "Cancelada" ∨
              req.status.getD "" = "Completada" then
            Except.ok { booking with status := req.status.getD "" }
          else Except.error UpdateErr.badStatus
        else Except.ok booking : Except UpdateErr Booking) with
  | .error e => .error e
  | .ok b1 =>
    match (if truthyStr req.booking_date then
            match parseDate (req.booking_date.getD "") with
            | none => Except.error UpdateErr.badFormat
            | some nd =>
              if nd < today ∧ role ≠ "Administrador" then
                Except.error UpdateErr.pastDateMove
              else Except.ok { b1 with booking_date := nd }
          else Except.ok b1 : Except UpdateErr Booking) with
    | .error e => .error e
    | .ok b2 =>
      match (if truthyStr req.start_time then
              match parseTime (req.start_time.getD "") with
              | none => Except.error UpdateErr.badFormat
              | some nt => Except.ok { b2 with start_time := nt }
            else Except.ok b2 : Except UpdateErr Booking) with
      | .error e => .error e
      | .ok b3 =>
        match (if truthyStr req.end_time then
                match parseTime (req.end_time.getD "") with
                | none => Except.error UpdateErr.badFormat
                | some nt => Except.ok { b3 with end_time := nt }
              else Except.ok b3 : Except UpdateErr Booking) with
        | .error e => .error e
        | .ok b4 =>
          if truthyInt req.court_id then
            match get_court_info (env (req.court_id.getD 0)) with
            | some true => .ok { b4 with court_id := req.court_id.getD 0 }
            | _ => .error .courtNotFound
          else .ok b4

/-- `if new_date_str or new_start_time_str or new_end_time_str or new_court_id`
(`app.py` line 203): did the request supply any field that re-triggers the
range check and conflict scan? -/
def intervalFieldSupplied (req : UpdateRequest) : Bool :=
  truthyStr req.booking_date || truthyStr req.start_time ||
    truthyStr req.end_time || truthyInt req.court_id

/-- The body of the `try` block of `update_booking` (`app.py` lines 172–223):
apply the supplied fields, then — only if date, start, end or court was
supplied — re-check `start < end` and re-run the conflict scan excluding the
row itself, and finally stamp `updated_at`. -/
def applyUpdate (env : Int → CourtResponse) (today : Nat) (role : String)
    (now booking_id : Nat) (req : UpdateRequest) (store : List Booking)
    (booking : Booking) : Except UpdateErr Booking :=
  match applyFields env today role req booking with
  | .error e => .error e
  | .ok b5 =>
    if intervalFieldSupplied req then
      if b5.start_time ≥ b5.end_time then .error .badRange
      else if store.any (fun c => (c.id != booking_id) &&
          conflictsWithReq b5.court_id b5.booking_date b5.start_time b5.end_time c) then
        .error .conflict
      else .ok { b5 with updated_at := now }
    else .ok { b5 with updated_at := now }

/-- `update_booking` (`app.py` lines 151–229): 404 if the id is absent, 403
if the caller neither owns the row nor is `Administrador`, otherwise the
`try`-block logic; on success the row is replaced in the table. -/
def update_booking (env : Int → CourtResponse) (today : Nat)
    (user_id_from_token : Nat) (user_role_from_token : String) (now : Nat)
    (booking_id : Nat) (req : UpdateRequest) (store : List Booking) :
    UpdateResult × List Booking :=
  match store.find? (fun b => b.id == booking_id) with
  | none => (.notFound, store)
  | some booking =>
    if user_role_from_token ≠ "Administrador" ∧ booking.user_id ≠ user_id_from_token then
      (.forbidden, store)
    else
      match applyUpdate env today user_role_from_token now booking_id req store booking with
      | .error e => (.err e, store)
      | .ok b' => (.ok b', store.map (fun c => if c.id == booking_id then b' else c))

/-- The HTTP outcome of `DELETE /bookings/<id>`. -/
inductive DeleteResult
  | notFound
  | forbidden
  | ok (b : Booking)
deriving DecidableEq, Repr

/-- HTTP status code of each `delete_booking` outcome. -/
def deleteStatusCode : DeleteResult → Nat
  | .notFound => 404
  | .forbidden => 403
  | .ok _ => 200

/-- `delete_booking` (`app.py` lines 231–257): soft cancellation — 404 on a
missing id, 403 for a caller who neither owns the row nor is
`Administrador`, otherwise the row's status is set to `Cancelada`, its
`updated_at` stamped, and the row replaced in the table. -/
def delete_booking (user_id_from_token : Nat) (user_role_from_token : String)
    (now booking_id : Nat) (store : List Booking) : DeleteResult × List Booking :=
  match store.find? (fun b => b.id == booking_id) with
  | none => (.notFound, store)
  | some booking =>
    if user_role_from_token ≠ "Administrador" ∧ booking.user_id ≠ user_id_from_token then
      (.forbidden, store)
    else
      (.ok { booking with status := "Cancelada", updated_at := now },
       store.map (fun c => if c.id == booking_id then
         { booking with status := "Cancelada", updated_at := now } else c))

/-- The HTTP outcome of `GET /bookings/<id>`. -/
inductive GetResult
  | notFound
  | forbidden
  | ok (b : Booking)
deriving DecidableEq, Repr

/-- HTTP status code of each `get_booking_by_id` outcome. -/
def getStatusCode : GetResult → Nat
  | .notFound => 404
  | .forbidden => 403
  | .ok _ => 200

/-- `get_booking_by_id` (`app.py` lines 135–149). Read-only. -/
def get_booking_by_id (user_id_from_token : Nat) (user_role_from_token : String)
    (booking_id : Nat) (store : List Booking) : GetResult :=
  match store.find? (fun b => b.id == booking_id) with
  | none => .notFound
  | some booking =>
    if user_role_from_token ≠ "Administrador" ∧ booking.user_id ≠ user_id_from_token then
      .forbidden
    else .ok booking

/-- What `jwt.decode` would say about a given token string: a valid payload
carrying the `user_id` and `role` claims, an `ExpiredSignatureError`, or an
`InvalidTokenError` (any other decoding exception lands in the same
401 branch and is folded into `invalid`). -/
inductive TokenVerdict
  | valid (user_id : Nat) (role : String)
  | expired
  | invalid

/-- The headers of an incoming request, reduced to the one header the gate
reads: the raw value of `Authorization`, if present. -/
structure AuthRequest where
  authorization : Option String

/-- Outcome of a request to a `@token_required`-protected route:
one of the gate's 401 rejections, an uncaught `IndexError` escaping the
decorator (Flask turns it into a 500 response), or the wrapped handler's
own response. -/
inductive GateResult (α : Type)
  | missingToken
  | expiredToken
  | invalidToken
  | crash
  | handled (a : α)
deriving DecidableEq, Repr

/-- HTTP status code of the gate's own outcomes (`none` when the wrapped
handler ran and chose the response itself). -/
def gateErrorCode : GateResult α → Option Nat
  | .missingToken => some 401
  | .expiredToken => some 401
  | .invalidToken => some 401
  | .crash => some 500
  | .handled _ => none

/-- `token_required` (`core/security.py` lines 8–34): if the `Authorization`
header is present its value is split on single spaces and indexed at 1 —
*outside* the `try` block, so a value with no space raises an uncaught
`IndexError` (`crash`). An absent header or an empty piece after the space
leaves `token` falsy (401); `jwt.decode` failures map to 401; otherwise the
wrapped handler runs with the token's `user_id` and `role` claims. -/
def token_required (verify : String → TokenVerdict) (handler : Nat → String → α)
    (req : AuthRequest) : GateResult α :=
  match req.authorization with
  | none => .missingToken
  | some header =>
    match (splitOnChar ' ' header.toList).get? 1 with
    | none => .crash
    | some tok =>
      if tok = [] then .missingToken
      else
        match verify (String.mk tok) with
        | .expired => .expiredToken
        | .invalid => .invalidToken
        | .valid uid role => .handled (handler uid role)

/-- One emitted availability slot (`app.py` lines 320–324). -/
structure Slot where
  start_time : Nat
  end_time : Nat
  is_available : Bool
deriving DecidableEq, Repr

/-- The inner `for booking in occupied_slots` test (`app.py` lines 312–318):
the slot `[slotStart, slotEnd)` is occupied iff it strictly overlaps some
fetched booking. -/
def slotOccupied (slotStart slotEnd : Nat) (occ : List Booking) : Bool :=
  occ.any (fun b => decide (slotStart < b.end_time) && decide (slotEnd > b.start_time))

/-- The inner `while current_slot_start < operating_end_hour` loop
(`app.py` lines 308–325): one-hour slots from `cur` up to 22:00 (= 1320
minutes), each tagged with its availability against the fetched bookings. -/
def slotsFrom (cur : Nat) (occ : List Booking) : List Slot :=
  if h : cur < 1320 then
    { start_time := cur, end_time := cur + 60,
      is_available := !slotOccupied cur (cur + 60) occ } :: slotsFrom (cur + 60) occ
  else []
termination_by 1320 - cur
decreasing_by omega

/-- A day's slot list: the inner loop started at 08:00 (= 480 minutes). -/
def daySlots (occ : List Booking) : List Slot := slotsFrom 480 occ

/-- The `occupied_slots` query (`app.py` lines 298–302): the Confirmed
bookings of the court on the given day. -/
def confirmedFor (store : List Booking) (cid : Int) (day : Nat) : List Booking :=
  store.filter (fun b => decide (b.court_id = cid) && decide (b.booking_date = day) &&
    decide (b.status = "Confirmada"))

/-- The outer `while current_date <= end_date` loop (`app.py` lines
296–328): one `(date, slots)` entry per day, stepping one day at a time. -/
def availLoop (store : List Booking) (cid : Int) (cur endD : Nat) :
    List (Nat × List Slot) :=
  if h : cur ≤ endD then
    (cur, daySlots (confirmedFor store cid cur)) :: availLoop store cid (cur + 1) endD
  else []
termination_by endD + 1 - cur
decreasing_by omega

/-- The query parameters of `GET /courts/<id>/availability`. -/
structure AvailQuery where
  date_start : Option String
  date_end : Option String
deriving DecidableEq, Repr

/-- The HTTP outcome of `get_court_availability`. -/
inductive AvailResult
  | missingParams
  | badFormat
  | badOrder
  | courtNotFound
  | ok (m : List (Nat × List Slot))
deriving DecidableEq, Repr

/-- HTTP status code of each `get_court_availability` outcome. -/
def availStatusCode : AvailResult → Nat
  | .missingParams => 400
  | .badFormat => 400
  | .badOrder => 400
  | .courtNotFound => 404
  | .ok _ => 200

/-- `get_court_availability` (`app.py` lines 259–330). -/
def get_court_availability (env : Int → CourtResponse) (cid : Int)
    (q : AvailQuery) (store : List Booking) : AvailResult :=
  if truthyStr q.date_start && truthyStr q.date_end then
    match parseDate (q.date_start.getD ""), parseDate (q.date_end.getD "") with
    | some start_date, some end_date =>
      if start_date > end_date then .badOrder
      else
        match get_court_info (env cid) with
        | some true => .ok (availLoop store cid start_date end_date)
        | _ => .courtNotFound
    | _, _ => .badFormat
  else .missingParams

/-- One state-mutating request against the booking store: the three write
endpoints of the service, each carrying everything the handler reads from
the outside world (Court Registry environment, wall-clock date, verified
token claims, `utcnow`, and the request payload). -/
inductive Op
  | create (env : Int → CourtResponse) (today user_id now : Nat) (req : CreateRequest)
  | update (env : Int → CourtResponse) (today user_id : Nat) (role : String)
      (now booking_id : Nat) (req : UpdateRequest)
  | cancel (user_id : Nat) (role : String) (now booking_id : Nat)

/-- The booking table after serving one request. -/
def stepOp (op : Op) (store : List Booking) : List Booking :=
  match op with
  | .create env today uid now req => (create_booking env today uid now store req).2
  | .update env today uid role now bid req =>
      (update_booking env today uid role now bid req store).2
  | .cancel uid role now bid => (delete_booking uid role now bid store).2

/-- A booking table reachable from the empty table by any sequence of
create, update and cancel requests. -/
inductive Reachable : List Booking → Prop
  | init : Reachable []
  | step (op : Op) (s : List Booking) : Reachable s → Reachable (stepOp op s)

/-- An operation is *scan-safe* when it is a create, a cancel, or an update
that supplies at least one of date, start, end or court — exactly the
updates for which the handler re-runs the conflict scan. -/
def opSafe : Op → Prop
  | .update _ _ _ _ _ _ req => intervalFieldSupplied req = true
  | _ => True

/-- Reachability restricted to scan-safe operations. -/
inductive ReachableSafe : List Booking → Prop
  | init : ReachableSafe []
  | step (op : Op) (s : List Booking) :
      ReachableSafe s → opSafe op → ReachableSafe (stepOp op s)

/-- Invariant 2 of the specification: for a fixed (court, date), any two
distinct Confirmed bookings are non-overlapping. -/
def ConfirmedNonOverlap (store : List Booking) : Prop :=
  ∀ a ∈ store, ∀ b ∈ store, a.id ≠ b.id →
    a.status = "Confirmada" → b.status = "Confirmada" →
    a.court_id = b.court_id → a.booking_date = b.booking_date →
    ¬(a.start_time < b.end_time ∧ a.end_time > b.start_time)

/-! ## Helper lemmas: invariant preservation -/

theorem append_nonconflicting (store : List Booking) (h : ConfirmedNonOverlap store)
    (uid : Nat) (cid : Int) (bd st et now : Nat)
    (hscan : ¬ (store.any (conflictsWithReq cid bd st et) = true)) :
    ConfirmedNonOverlap (store ++ [newBooking store uid cid bd st et now]) := by
  intro a ha b hb hne hsa hsb hcc hdd
  have hfa : ∀ x ∈ store, ¬ (conflictsWithReq cid bd st et x = true) := by
    intro x hx hpx
    exact hscan (List.any_eq_true.2 ⟨x, hx, hpx⟩)
  rcases List.mem_append.1 ha with ha' | ha' <;> rcases List.mem_append.1 hb with hb' | hb'
  · exact h a ha' b hb' hne hsa hsb hcc hdd
  · rw [List.mem_singleton] at hb'
    subst hb'
    have hx := hfa a ha'
    simp only [conflictsWithReq, Bool.and_eq_true, decide_eq_true_eq, not_and] at hx
    simp only [newBooking] at hcc hdd ⊢
    intro hov
    exact hx ⟨⟨⟨hcc, hdd⟩, hsa⟩, hov.1⟩ hov.2
  · rw [List.mem_singleton] at ha'
    subst ha'
    have hx := hfa b hb'
    simp only [conflictsWithReq, Bool.and_eq_true, decide_eq_true_eq, not_and] at hx
    simp only [newBooking] at hcc hdd ⊢
    intro hov
    exact hx ⟨⟨⟨hcc.symm, hdd.symm⟩, hsb⟩, hov.2⟩ hov.1
  · rw [List.mem_singleton] at ha' hb'
    subst ha'; subst hb'
    exact absurd rfl hne

theorem create_preserves (env : Int → CourtResponse) (today uid now : Nat)
    (store : List Booking) (req : CreateRequest) (h : ConfirmedNonOverlap store) :
    ConfirmedNonOverlap (create_booking env today uid now store req).2 := by
  unfold create_booking
  repeat' split
  all_goals try exact h
  rename_i hany
  exact append_nonconflicting store h uid _ _ _ _ now hany

theorem delete_preserves (uid : Nat) (role : String) (now bid : Nat)
    (store : List Booking) (h : ConfirmedNonOverlap store) :
    ConfirmedNonOverlap (delete_booking uid role now bid store).2 := by
  unfold delete_booking
  repeat' split
  all_goals try exact h
  intro a ha b hb hne hsa hsb hcc hdd
  rcases List.mem_map.1 ha with ⟨c, hc, rfl⟩
  rcases List.mem_map.1 hb with ⟨d, hd, rfl⟩
  by_cases hcid : (c.id == bid) = true <;> by_cases hdid : (d.id == bid) = true
  · simp [hcid, hdid] at hne
  · simp only [hcid, if_true] at hsa
    simp at hsa
  · simp only [hdid, if_true] at hsb
    simp at hsb
  · simp only [hcid, hdid, if_false] at hne hsa hsb hcc hdd ⊢
    exact h c hc d hd hne hsa hsb hcc hdd

theorem replace_nonconflicting (store : List Booking) (h : ConfirmedNonOverlap store)
    (bid : Nat) (b' : Booking)
    (hscan : ¬ (store.any (fun c => (c.id != bid) &&
      conflictsWithReq b'.court_id b'.booking_date b'.start_time b'.end_time c) = true)) :
    ConfirmedNonOverlap (store.map (fun c => if c.id == bid then b' else c)) := by
  have hfa : ∀ x ∈ store, x.id ≠ bid →
      ¬(x.court_id = b'.court_id ∧ x.booking_date = b'.booking_date ∧
        x.status = "Confirmada" ∧ x.start_time < b'.end_time ∧
        x.end_time > b'.start_time) := by
    intro x hx hid hcontra
    apply hscan
    apply List.any_eq_true.2
    refine ⟨x, hx, ?_⟩
    simp [conflictsWithReq, hid, hcontra.1, hcontra.2.1, hcontra.2.2.1,
      hcontra.2.2.2.1, hcontra.2.2.2.2]
  intro a ha b hb hne hsa hsb hcc hdd
  rcases List.mem_map.1 ha with ⟨c, hc, rfl⟩
  rcases List.mem_map.1 hb with ⟨d, hd, rfl⟩
  by_cases hcid : (c.id == bid) = true <;> by_cases hdid : (d.id == bid) = true
  · simp [hcid, hdid] at hne
  · simp only [hcid, hdid, if_true, if_false] at hne hsa hsb hcc hdd ⊢
    have hdid' : d.id ≠ bid := by simpa using hdid
    intro hov
    exact hfa d hd hdid' ⟨hcc.symm, hdd.symm, hsb, hov.2, hov.1⟩
  · simp only [hcid, hdid, if_true, if_false] at hne hsa hsb hcc hdd ⊢
    have hcid' : c.id ≠ bid := by simpa using hcid
    intro hov
    exact hfa c hc hcid' ⟨hcc, hdd, hsa, hov.1, hov.2⟩
  · simp only [hcid, hdid, if_false] at hne hsa hsb hcc hdd ⊢
    exact h c hc d hd hne hsa hsb hcc hdd

theorem update_preserves (env : Int → CourtResponse) (today uid : Nat) (role : String)
    (now bid : Nat) (req : UpdateRequest) (store : List Booking)
    (hsafe : intervalFieldSupplied req = true) (h : ConfirmedNonOverlap store) :
    ConfirmedNonOverlap (update_booking env today uid role now bid req store).2 := by
  unfold update_booking
  repeat' split
  all_goals try exact h
  rename_i xo booking hfind hauth xe b' heq
  unfold applyUpdate at heq
  rcases happ : applyFields env today role req booking with e | b5
  · rw [happ] at heq
    cases heq
  · rw [happ, hsafe] at heq
    simp only [if_true] at heq
    by_cases hr : b5.start_time ≥ b5.end_time
    · rw [if_pos hr] at heq
      cases heq
    · rw [if_neg hr] at heq
      by_cases hs : (store.any (fun c => (c.id != bid) &&
          conflictsWithReq b5.court_id b5.booking_date b5.start_time b5.end_time c)) = true
      · rw [if_pos hs] at heq
        cases heq
      · rw [if_neg hs] at heq
        injection heq with heq'
        subst heq'
        apply replace_nonconflicting store h bid
        simpa using hs

theorem step_preserves (op : Op) (store : List Booking) (hs : opSafe op)
    (h : ConfirmedNonOverlap store) : ConfirmedNonOverlap (stepOp op store) := by
  cases op with
  | create env today uid now req => exact create_preserves env today uid now store req h
  | update env today uid role now bid req => exact update_preserves env today uid role now bid req store hs h
  | cancel uid role now bid => exact delete_preserves uid role now bid store h

/-! ## Concrete inputs shared by the witnesses -/

/-- A Court Registry in which every court exists and is active. -/
def envOkAll : Int → CourtResponse := fun _ => .ok true

/-- A Court Registry that cannot be reached (every lookup hits a network
failure / timeout). -/
def envDown : Int → CourtResponse := fun _ => .netError

/-- A create request for court 1, day `2025-06-10` (ordinal 739411),
08:00–09:00. -/
def reqEightNine : CreateRequest :=
  ⟨some 1, some "2025-06-10", some "08:00", some "09:00", none⟩

/-- An update request that supplies only `status = "Confirmada"`. -/
def reqStatusOnly : UpdateRequest := ⟨some "Confirmada", none, none, none, none⟩

/-! ## C1 -/

/-- **C1, counterexample.** The claim "every reachable state satisfies the
pairwise non-overlap invariant for Confirmed bookings, and in particular an
update that changes only the status field back to Confirmed preserves it" is
false: the state reached by (1) creating booking 1 (court 1, 08:00–09:00),
(2) cancelling it, (3) creating the overlapping booking 2 in the freed slot,
and (4) updating booking 1 with only `status := "Confirmada"` — which skips
the conflict scan — contains two distinct overlapping Confirmed bookings. -/
theorem C1_counterexample :
    Reachable (stepOp (.update envOkAll 0 1 "Usuario" 0 1 reqStatusOnly)
      (stepOp (.create envOkAll 0 2 0 reqEightNine)
        (stepOp (.cancel 1 "Usuario" 0 1)
          (stepOp (.create envOkAll 0 1 0 reqEightNine) [])))) ∧
    ¬ ConfirmedNonOverlap (stepOp (.update envOkAll 0 1 "Usuario" 0 1 reqStatusOnly)
      (stepOp (.create envOkAll 0 2 0 reqEightNine)
        (stepOp (.cancel 1 "Usuario" 0 1)
          (stepOp (.create envOkAll 0 1 0 reqEightNine) [])))) := by
  constructor
  · exact Reachable.step _ _ (Reachable.step _ _ (Reachable.step _ _
      (Reachable.step _ _ Reachable.init)))
  · unfold ConfirmedNonOverlap
    decide

/-- **C1, amended.** For every state of the booking store reachable via
creates, cancels, and *scan-safe* updates (updates supplying at least one of
date, start, end or court — exactly those for which `update_booking` re-runs
the conflict scan), any two distinct Confirmed bookings of the same
(court, date) are non-overlapping. A status-only update skips the scan and
can break the invariant (see the counterexample). -/
theorem C1_amended (s : List Booking) (h : ReachableSafe s) : ConfirmedNonOverlap s := by
  induction h with
  | init => intro a ha; cases ha
  | step op s hr hsafe ih => exact step_preserves op s hsafe ih

/-- **C1, witness.** The amended theorem applied to the concrete one-step
safe trace that creates a single booking. -/
theorem C1_amended_witness :
    ConfirmedNonOverlap (stepOp (.create envOkAll 0 1 0 reqEightNine) []) :=
  C1_amended _ (ReachableSafe.step _ _ ReachableSafe.init trivial)

/-! ## C2 -/

/-- **C2, counterexample.** The claim "Court Registry unreachable during
create returns the dependency-unavailable error with status 503" is false:
with every court lookup hitting a network failure, a well-formed create
request returns the court-not-found outcome, whose status code is 404, not
503 (no row is persisted, which does hold). -/
theorem C2_counterexample :
    (create_booking envDown 0 1 0 [] reqEightNine).1 = .courtNotFound ∧
    createStatusCode (create_booking envDown 0 1 0 [] reqEightNine).1 = 404 ∧
    createStatusCode (create_booking envDown 0 1 0 [] reqEightNine).1 ≠ 503 ∧
    (create_booking envDown 0 1 0 [] reqEightNine).2 = [] := by
  decide

/-- **C2, amended.** For every create request that passes field, format,
past-date and range validation, if the Court Registry cannot be reached
(network failure / timeout), `create_booking` returns the court-not-found
error with status 404 — the same response as for a missing or inactive
court, not a 503 — and the booking store is unchanged. -/
theorem C2_amended (env : Int → CourtResponse) (today uid now : Nat)
    (store : List Booking) (req : CreateRequest) (cid : Int) (bd st et : Nat)
    (hc : req.court_id = some cid)
    (hform : (truthyInt req.court_id && truthyStr req.booking_date &&
      truthyStr req.start_time && truthyStr req.end_time) = true)
    (hbd : parseDate (req.booking_date.getD "") = some bd)
    (hst : parseTime (req.start_time.getD "") = some st)
    (het : parseTime (req.end_time.getD "") = some et)
    (hpast : ¬ bd < today) (hrange : ¬ st ≥ et)
    (hdown : env cid = .netError) :
    (create_booking env today uid now store req).1 = .courtNotFound ∧
    createStatusCode (create_booking env today uid now store req).1 = 404 ∧
    createStatusCode (create_booking env today uid now store req).1 ≠ 503 ∧
    (create_booking env today uid now store req).2 = store := by
  have hcid : req.court_id.getD 0 = cid := by rw [hc]; rfl
  simp only [create_booking, hform, hbd, hst, het, hcid, hdown, if_true]
  rw [if_neg hpast, if_neg hrange]
  simp [get_court_info, createStatusCode]

/-- **C2, witness.** The amended theorem applied to a concrete request with
the registry down. -/
theorem C2_amended_witness :
    (create_booking envDown 3 7 1 [] ⟨some 2, some "2025-06-10", some "10:00", some "11:00", none⟩).1 = .courtNotFound ∧
    createStatusCode (create_booking envDown 3 7 1 [] ⟨some 2, some "2025-06-10", some "10:00", some "11:00", none⟩).1 = 404 ∧
    createStatusCode (create_booking envDown 3 7 1 [] ⟨some 2, some "2025-06-10", some "10:00", some "11:00", none⟩).1 ≠ 503 ∧
    (create_booking envDown 3 7 1 [] ⟨some 2, some "2025-06-10", some "10:00", some "11:00", none⟩).2 = [] :=
  C2_amended envDown 3 7 1 [] _ 2 739411 600 660 rfl (by decide) (by decide)
    (by decide) (by decide) (by decide) (by decide) rfl

/-! ## C3 -/

/-- **C3.** For every create request that passes input validation
(all four fields truthy and parseable, date not in the past, start < end)
and whose court is active, the request returns the 409 conflict if and only
if the proposed interval strictly overlaps some existing Confirmed booking
of the same (court, date) — and if there is no such strict overlap
(in particular when the proposed interval merely touches existing ones),
the booking is created with status 201, persisted as Confirmed by appending
it to the store. -/
theorem C3_create_conflict_iff (env : Int → CourtResponse) (today uid now : Nat)
    (store : List Booking) (req : CreateRequest) (cid : Int) (bd st et : Nat)
    (hc : req.court_id = some cid)
    (hform : (truthyInt req.court_id && truthyStr req.booking_date &&
      truthyStr req.start_time && truthyStr req.end_time) = true)
    (hbd : parseDate (req.booking_date.getD "") = some bd)
    (hst : parseTime (req.start_time.getD "") = some st)
    (het : parseTime (req.end_time.getD "") = some et)
    (hpast : ¬ bd < today) (hrange : st < et)
    (hcourt : env cid = .ok true) :
    ((create_booking env today uid now store req).1 = .conflict ↔
      ∃ b ∈ store, b.status = "Confirmada" ∧ b.court_id = cid ∧ b.booking_date = bd ∧
        st < b.end_time ∧ et > b.start_time) ∧
    ((create_booking env today uid now store req).1 = .conflict →
      createStatusCode (create_booking env today uid now store req).1 = 409 ∧
      (create_booking env today uid now store req).2 = store) ∧
    (¬ (∃ b ∈ store, b.status = "Confirmada" ∧ b.court_id = cid ∧ b.booking_date = bd ∧
        st < b.end_time ∧ et > b.start_time) →
      (create_booking env today uid now store req).1 =
        .created (newBooking store uid cid bd st et now) ∧
      createStatusCode (create_booking env today uid now store req).1 = 201 ∧
      (create_booking env today uid now store req).2 =
        store ++ [newBooking store uid cid bd st et now] ∧
      (newBooking store uid cid bd st et now).status = "Confirmada") := by
  have hcid : req.court_id.getD 0 = cid := by rw [hc]; rfl
  have hnr : ¬ st ≥ et := by omega
  have hred : create_booking env today uid now store req =
      if store.any (conflictsWithReq cid bd st et) then (.conflict, store)
      else (.created (newBooking store uid cid bd st et now),
            store ++ [newBooking store uid cid bd st et now]) := by
    simp only [create_booking, hform, hbd, hst, het, hcid, hcourt, if_true]
    rw [if_neg hpast, if_neg hnr]
    simp [get_court_info]
  have hiff : store.any (conflictsWithReq cid bd st et) = true ↔
      ∃ b ∈ store, b.status = "Confirmada" ∧ b.court_id = cid ∧ b.booking_date = bd ∧
        st < b.end_time ∧ et > b.start_time := by
    rw [List.any_eq_true]
    constructor
    · rintro ⟨b, hb, hpb⟩
      simp only [conflictsWithReq, Bool.and_eq_true, decide_eq_true_eq] at hpb
      exact ⟨b, hb, hpb.1.1.2, hpb.1.1.1.1, hpb.1.1.1.2, hpb.2, hpb.1.2⟩
    · rintro ⟨b, hb, h1, h2, h3, h4, h5⟩
      refine ⟨b, hb, ?_⟩
      simp [conflictsWithReq, h1, h2, h3, h4, h5]
  by_cases hs : store.any (conflictsWithReq cid bd st et) = true
  · rw [hred, if_pos hs]
    refine ⟨by simpa using hiff.1 hs, fun _ => ⟨rfl, rfl⟩, fun hn => absurd (hiff.1 hs) hn⟩
  · rw [hred, if_neg hs]
    refine ⟨?_, ?_, fun _ => ⟨rfl, rfl, rfl, rfl⟩⟩
    · simp only [reduceCtorEq, false_iff]
      intro hex
      exact hs (hiff.2 hex)
    · intro hcontra
      cases hcontra

/-- The Confirmed booking (court 1, 2025-06-10, 09:00–10:00) of the spec's
conflict scenario; the ordinal of 2025-06-10 is 739411. -/
def storeScenario : List Booking :=
  [{ id := 1, user_id := 1, court_id := 1, booking_date := 739411,
     start_time := 540, end_time := 600, status := "Confirmada",
     created_at := 0, updated_at := 0 }]

/-- **C3, witness.** The spec's scenario: against an existing Confirmed
09:00–10:00 booking, a 09:30–10:30 request conflicts (409) and a touching
10:00–11:00 request is created. -/
theorem C3_witness :
    (create_booking envOkAll 0 1 0 storeScenario
      ⟨some 1, some "2025-06-10", some "09:30", some "10:30", none⟩).1 = .conflict ∧
    (create_booking envOkAll 0 1 0 storeScenario
      ⟨some 1, some "2025-06-10", some "10:00", some "11:00", none⟩).1 =
      .created (newBooking storeScenario 1 1 739411 600 660 0) :=
  ⟨(C3_create_conflict_iff envOkAll 0 1 0 storeScenario _ 1 739411 570 630 rfl
      (by decide) (by decide) (by decide) (by decide) (by decide) (by decide) rfl).1.2
      (by decide),
   ((C3_create_conflict_iff envOkAll 0 1 0 storeScenario _ 1 739411 600 660 rfl
      (by decide) (by decide) (by decide) (by decide) (by decide) (by decide) rfl).2.2
      (by decide)).1⟩

/-! ## C5 -/

/-- **C5.** The create-booking validation pipeline runs its checks in the
specified order, each short-circuiting: missing/falsy fields give the 400
missing-fields response before anything else; then unparseable date/times
give the 400 format response; then a past date gives its 400; then
start ≥ end gives its 400; and only when all of these pass is the remote
court check consulted — a failed court check returns 404 regardless of the
store, so the conflict scan runs only after it. The first four outcomes are
quantified over every registry environment and every store, so no court
call or conflict scan can influence them. -/
theorem C5_validation_order (req : CreateRequest) (uid now : Nat) :
    (∀ (env : Int → CourtResponse) (today : Nat) (store : List Booking),
      (truthyInt req.court_id && truthyStr req.booking_date &&
        truthyStr req.start_time && truthyStr req.end_time) = false →
      create_booking env today uid now store req = (.missingFields, store)) ∧
    (∀ (env : Int → CourtResponse) (today : Nat) (store : List Booking),
      (truthyInt req.court_id && truthyStr req.booking_date &&
        truthyStr req.start_time && truthyStr req.end_time) = true →
      (parseDate (req.booking_date.getD "") = none ∨
        parseTime (req.start_time.getD "") = none ∨
        parseTime (req.end_time.getD "") = none) →
      create_booking env today uid now store req = (.badFormat, store)) ∧
    (∀ (env : Int → CourtResponse) (today : Nat) (store : List Booking) (bd st et : Nat),
      (truthyInt req.court_id && truthyStr req.booking_date &&
        truthyStr req.start_time && truthyStr req.end_time) = true →
      parseDate (req.booking_date.getD "") = some bd →
      parseTime (req.start_time.getD "") = some st →
      parseTime (req.end_time.getD "") = some et →
      bd < today →
      create_booking env today uid now store req = (.pastDate, store)) ∧
    (∀ (env : Int → CourtResponse) (today : Nat) (store : List Booking) (bd st et : Nat),
      (truthyInt req.court_id && truthyStr req.booking_date &&
        truthyStr req.start_time && truthyStr req.end_time) = true →
      parseDate (req.booking_date.getD "") = some bd →
      parseTime (req.start_time.getD "") = some st →
      parseTime (req.end_time.getD "") = some et →
      ¬ bd < today → st ≥ et →
      create_booking env today uid now store req = (.badRange, store)) ∧
    (∀ (env : Int → CourtResponse) (today : Nat) (store : List Booking) (bd st et : Nat),
      (truthyInt req.court_id && truthyStr req.booking_date &&
        truthyStr req.start_time && truthyStr req.end_time) = true →
      parseDate (req.booking_date.getD "") = some bd →
      parseTime (req.start_time.getD "") = some st →
      parseTime (req.end_time.getD "") = some et →
      ¬ bd < today → st < et →
      get_court_info (env (req.court_id.getD 0)) ≠ some true →
      create_booking env today uid now store req = (.courtNotFound, store)) ∧
    (createStatusCode .missingFields = 400 ∧ createStatusCode .badFormat = 400 ∧
      createStatusCode .pastDate = 400 ∧ createStatusCode .badRange = 400) := by
  refine ⟨?_, ?_, ?_, ?_, ?_, rfl, rfl, rfl, rfl⟩
  · intro env today store hfalse
    simp [create_booking, hfalse]
  · intro env today store hform hbad
    rcases hbad with hp | hp | hp
    · simp [create_booking, hform, hp]
    · rcases hd : parseDate (req.booking_date.getD "") with _ | bd
      · simp [create_booking, hform, hd]
      · simp [create_booking, hform, hd, hp]
    · rcases hd : parseDate (req.booking_date.getD "") with _ | bd
      · simp [create_booking, hform, hd]
      · rcases hs : parseTime (req.start_time.getD "") with _ | st
        · simp [create_booking, hform, hd, hs]
        · simp [create_booking, hform, hd, hs, hp]
  · intro env today store bd st et hform hbd hst het hpast
    simp [create_booking, hform, hbd, hst, het, hpast]
  · intro env today store bd st et hform hbd hst het hpast hr
    simp only [create_booking, hform, hbd, hst, het, if_true]
    rw [if_neg hpast, if_pos hr]
  · intro env today store bd st et hform hbd hst het hpast hr hcourt
    simp only [create_booking, hform, hbd, hst, het, if_true]
    rw [if_neg hpast, if_neg (by omega : ¬ st ≥ et)]

/-- **C5, witness.** The format conjunct applied to a request whose date has
an impossible month, against an arbitrary registry and empty store. -/
theorem C5_validation_order_witness :
    create_booking envOkAll 0 1 0 []
      ⟨some 1, some "2025-13-01", some "09:00", some "10:00", none⟩ =
      (.badFormat, []) :=
  (C5_validation_order ⟨some 1, some "2025-13-01", some "09:00", some "10:00", none⟩ 1 0).2.1
    envOkAll 0 [] (by decide) (.inl (by decide))

/-! ## C6 -/

/-- The observable fields of a booking row: everything except the
last-update timestamp. -/
def obsView (b : Booking) : Nat × Nat × Int × Nat × Nat × Nat × String × Nat :=
  (b.id, b.user_id, b.court_id, b.booking_date, b.start_time, b.end_time,
   b.status, b.created_at)

/-- Cancelling an already-cancelled row succeeds and only touches
`updated_at`: the store is unchanged up to `obsView`. -/
theorem delete_cancelled_noop (uid : Nat) (role : String) (now bid : Nat)
    (store : List Booking) (bk : Booking)
    (hfind : store.find? (fun b => b.id == bid) = some bk)
    (hcanc : bk.status = "Cancelada")
    (hauth : ¬(role ≠ "Administrador" ∧ bk.user_id ≠ uid))
    (huniq : ∀ c ∈ store, (c.id == bid) = true → c = bk) :
    (delete_booking uid role now bid store).1 =
      .ok { bk with status := "Cancelada", updated_at := now } ∧
    (delete_booking uid role now bid store).2 =
      store.map (fun c => if c.id == bid then
        { bk with status := "Cancelada", updated_at := now } else c) ∧
    (delete_booking uid role now bid store).2.map obsView = store.map obsView := by
  unfold delete_booking
  rw [hfind]
  dsimp only
  rw [if_neg hauth]
  refine ⟨rfl, rfl, ?_⟩
  rw [List.map_map]
  apply List.map_congr_left
  intro c hc
  by_cases hcb : (c.id == bid) = true
  · have := huniq c hc hcb
    subst this
    have hcb' : c.id = bid := by simpa using hcb
    simp [obsView, hcb', hcanc]
  · simp [Function.comp, hcb]

/-- Replacing the row found at a key yields a store in which the same key
finds the replacement. -/
theorem find?_map_replace (store : List Booking) (bid : Nat) (b' bk : Booking)
    (hfind : store.find? (fun b => b.id == bid) = some bk)
    (hid : (b'.id == bid) = true) :
    (store.map (fun c => if c.id == bid then b' else c)).find?
      (fun b => b.id == bid) = some b' := by
  induction store with
  | nil => cases hfind
  | cons x xs ih =>
    by_cases hx : (x.id == bid) = true
    · simp [List.find?, hx, hid]
    · have hx' : (x.id == bid) = false := by simpa using hx
      simp only [List.find?, hx'] at hfind
      simp only [List.map_cons]
      have hfx : (if (x.id == bid) = true then b' else x) = x := by simp [hx']
      rw [hfx]
      simp only [List.find?, hx']
      exact ih hfind

/-- **C6.** Cancellation is idempotent in effect: for a booking that is
already Cancelled (and whose id is unique in the store), a cancel request by
its owner or an Administrator succeeds with 200, sets status to Cancelled
again, leaves every field except `updated_at` unchanged, and a second
cancellation yields the same observable state (up to the timestamp) both
times. -/
theorem C6_cancel_idempotent (uid : Nat) (role : String) (now1 now2 bid : Nat)
    (store : List Booking) (bk : Booking)
    (hfind : store.find? (fun b => b.id == bid) = some bk)
    (hcanc : bk.status = "Cancelada")
    (hauth : ¬(role ≠ "Administrador" ∧ bk.user_id ≠ uid))
    (huniq : ∀ c ∈ store, (c.id == bid) = true → c = bk) :
    (delete_booking uid role now1 bid store).1 =
      .ok { bk with status := "Cancelada", updated_at := now1 } ∧
    deleteStatusCode (delete_booking uid role now1 bid store).1 = 200 ∧
    (delete_booking uid role now1 bid store).2.map obsView = store.map obsView ∧
    (delete_booking uid role now2 bid
      (delete_booking uid role now1 bid store).2).1 =
      .ok { bk with status := "Cancelada", updated_at := now2 } ∧
    (delete_booking uid role now2 bid
      (delete_booking uid role now1 bid store).2).2.map obsView = store.map obsView := by
  obtain ⟨h1, h2, h3⟩ := delete_cancelled_noop uid role now1 bid store bk hfind hcanc hauth huniq
  have hbkid : (bk.id == bid) = true := by
    have := List.find?_some hfind
    simpa using this
  have hfind2 : (delete_booking uid role now1 bid store).2.find? (fun b => b.id == bid) =
      some { bk with status := "Cancelada", updated_at := now1 } := by
    rw [h2]
    exact find?_map_replace store bid _ bk hfind (by simpa using hbkid)
  have huniq2 : ∀ c ∈ (delete_booking uid role now1 bid store).2, (c.id == bid) = true →
      c = { bk with status := "Cancelada", updated_at := now1 } := by
    rw [h2]
    intro c hc hcb
    rcases List.mem_map.1 hc with ⟨d, hd, rfl⟩
    by_cases hdb : (d.id == bid) = true
    · simp [hdb]
    · have hdb' : (d.id == bid) = false := by simpa using hdb
      simp [hdb'] at hcb
  obtain ⟨g1, g2, g3⟩ := delete_cancelled_noop uid role now2 bid _ _ hfind2 rfl
    (by simpa using hauth) huniq2
  refine ⟨h1, by rw [h1]; rfl, h3, by simpa using g1, ?_⟩
  rw [g3, h3]

/-- An already-cancelled booking owned by user 2. -/
def bkCancelled : Booking :=
  { id := 1, user_id := 2, court_id := 1, booking_date := 0,
    start_time := 480, end_time := 540, status := "Cancelada",
    created_at := 0, updated_at := 0 }

/-- A store holding one already-cancelled booking, owned by user 2. -/
def storeCancelled : List Booking := [bkCancelled]

/-- **C6, witness.** The idempotence theorem applied to the concrete
already-cancelled booking, cancelled twice by its owner. -/
theorem C6_cancel_idempotent_witness :
    (delete_booking 2 "Usuario" 5 1 storeCancelled).1 =
      .ok { id := 1, user_id := 2, court_id := 1, booking_date := 0,
            start_time := 480, end_time := 540, status := "Cancelada",
            created_at := 0, updated_at := 5 } ∧
    deleteStatusCode (delete_booking 2 "Usuario" 5 1 storeCancelled).1 = 200 ∧
    (delete_booking 2 "Usuario" 5 1 storeCancelled).2.map obsView =
      storeCancelled.map obsView ∧
    (delete_booking 2 "Usuario" 9 1
      (delete_booking 2 "Usuario" 5 1 storeCancelled).2).1 =
      .ok { id := 1, user_id := 2, court_id := 1, booking_date := 0,
            start_time := 480, end_time := 540, status := "Cancelada",
            created_at := 0, updated_at := 9 } ∧
    (delete_booking 2 "Usuario" 9 1
      (delete_booking 2 "Usuario" 5 1 storeCancelled).2).2.map obsView =
      storeCancelled.map obsView :=
  C6_cancel_idempotent 2 "Usuario" 5 9 1 storeCancelled bkCancelled (by decide)
    (by decide) (by decide) (by decide)

/-! ## C7 -/

/-- **C7.** For get-by-id, update and cancel: a missing booking id yields the
404 not-found outcome (store unchanged for the write endpoints), and an
existing booking whose caller is neither its owner nor an Administrador
yields the 403 forbidden outcome with the store unchanged. -/
theorem C7_not_found_forbidden (env : Int → CourtResponse) (today uid : Nat)
    (role : String) (now bid : Nat) (ureq : UpdateRequest) (store : List Booking) :
    (store.find? (fun b => b.id == bid) = none →
      get_booking_by_id uid role bid store = .notFound ∧
      getStatusCode (get_booking_by_id uid role bid store) = 404 ∧
      update_booking env today uid role now bid ureq store = (.notFound, store) ∧
      updateStatusCode (update_booking env today uid role now bid ureq store).1 = 404 ∧
      delete_booking uid role now bid store = (.notFound, store) ∧
      deleteStatusCode (delete_booking uid role now bid store).1 = 404) ∧
    (∀ bk, store.find? (fun b => b.id == bid) = some bk →
      role ≠ "Administrador" → bk.user_id ≠ uid →
      get_booking_by_id uid role bid store = .forbidden ∧
      getStatusCode (get_booking_by_id uid role bid store) = 403 ∧
      update_booking env today uid role now bid ureq store = (.forbidden, store) ∧
      updateStatusCode (update_booking env today uid role now bid ureq store).1 = 403 ∧
      delete_booking uid role now bid store = (.forbidden, store) ∧
      deleteStatusCode (delete_booking uid role now bid store).1 = 403) := by
  constructor
  · intro hnone
    unfold get_booking_by_id update_booking delete_booking
    rw [hnone]
    exact ⟨rfl, rfl, rfl, rfl, rfl, rfl⟩
  · intro bk hfind hrole huser
    unfold get_booking_by_id update_booking delete_booking
    rw [hfind]
    dsimp only
    rw [if_pos ⟨hrole, huser⟩, if_pos ⟨hrole, huser⟩, if_pos ⟨hrole, huser⟩]
    exact ⟨rfl, rfl, rfl, rfl, rfl, rfl⟩

/-- **C7, witness.** User 3 (role `Usuario`) attempting id 5 (absent) gets
404 everywhere, and attempting id 1 (owned by user 2) gets 403 everywhere,
with the store unchanged. -/
theorem C7_not_found_forbidden_witness :
    (get_booking_by_id 3 "Usuario" 5 storeCancelled = .notFound ∧
      getStatusCode (get_booking_by_id 3 "Usuario" 5 storeCancelled) = 404 ∧
      update_booking envOkAll 0 3 "Usuario" 0 5 reqStatusOnly storeCancelled =
        (.notFound, storeCancelled) ∧
      updateStatusCode (update_booking envOkAll 0 3 "Usuario" 0 5 reqStatusOnly
        storeCancelled).1 = 404 ∧
      delete_booking 3 "Usuario" 0 5 storeCancelled = (.notFound, storeCancelled) ∧
      deleteStatusCode (delete_booking 3 "Usuario" 0 5 storeCancelled).1 = 404) ∧
    (get_booking_by_id 3 "Usuario" 1 storeCancelled = .forbidden ∧
      getStatusCode (get_booking_by_id 3 "Usuario" 1 storeCancelled) = 403 ∧
      update_booking envOkAll 0 3 "Usuario" 0 1 reqStatusOnly storeCancelled =
        (.forbidden, storeCancelled) ∧
      updateStatusCode (update_booking envOkAll 0 3 "Usuario" 0 1 reqStatusOnly
        storeCancelled).1 = 403 ∧
      delete_booking 3 "Usuario" 0 1 storeCancelled = (.forbidden, storeCancelled) ∧
      deleteStatusCode (delete_booking 3 "Usuario" 0 1 storeCancelled).1 = 403) :=
  ⟨(C7_not_found_forbidden envOkAll 0 3 "Usuario" 0 5 reqStatusOnly storeCancelled).1
      (by decide),
   (C7_not_found_forbidden envOkAll 0 3 "Usuario" 0 1 reqStatusOnly storeCancelled).2
      bkCancelled (by decide) (by decide) (by decide)⟩

/-! ## C8 -/

/-- **C8.** The owning user of a created booking is always the verified token
claim, never anything in the request body: two create requests that differ
only in the body's `user_id` field behave identically (same outcome, same
store), and whenever a booking is persisted its `user_id` equals the token's
user id. -/
theorem C8_owner_from_token (env : Int → CourtResponse) (today uid now : Nat)
    (store : List Booking) (req : CreateRequest) (v : Option Int) :
    create_booking env today uid now store { req with user_id := v } =
      create_booking env today uid now store req ∧
    ∀ nb, (create_booking env today uid now store req).1 = .created nb →
      nb.user_id = uid := by
  constructor
  · rfl
  · intro nb h
    unfold create_booking at h
    repeat' split at h
    all_goals cases h
    all_goals rfl

/-- **C8, witness.** A concrete create whose body carries `user_id = 99`
persists the token's user 7, and behaves exactly as without the field. -/
theorem C8_owner_from_token_witness :
    create_booking envOkAll 0 7 0 [] ⟨some 1, some "2025-06-10", some "08:00", some "09:00", some 99⟩ =
      create_booking envOkAll 0 7 0 [] ⟨some 1, some "2025-06-10", some "08:00", some "09:00", none⟩ ∧
    (newBooking [] 7 1 739411 480 540 0).user_id = 7 :=
  ⟨(C8_owner_from_token envOkAll 0 7 0 [] ⟨some 1, some "2025-06-10", some "08:00", some "09:00", none⟩
      (some 99)).1,
   (C8_owner_from_token envOkAll 0 7 0 [] ⟨some 1, some "2025-06-10", some "08:00", some "09:00", none⟩
      (some 99)).2 (newBooking [] 7 1 739411 480 540 0) (by decide)⟩

/-! ## C9 -/

/-- **C9, counterexample.** The claim "expired, malformed or absent
credentials always yield the 401 authentication error" is false for a
malformed `Authorization` value with no space (not of the `Bearer <token>`
shape): `split(" ")[1]` raises an uncaught `IndexError` outside the `try`
block, producing a 500, not a 401 (the handler still never runs). -/
theorem C9_counterexample :
    token_required (fun _ => .invalid) (fun u _ => u) ⟨some "sometoken"⟩ =
      (.crash : GateResult Nat) ∧
    gateErrorCode (token_required (fun _ => .invalid) (fun u _ => u)
      ⟨some "sometoken"⟩) = some 500 ∧
    gateErrorCode (token_required (fun _ => .invalid) (fun u _ => u)
      ⟨some "sometoken"⟩) ≠ some 401 := by
  decide

/-- **C9, amended.** The gate returns 401 — for every possible handler, so
the handler body is never executed — when the `Authorization` header is
absent, when the piece after the first space is empty, or when the token is
expired or invalid; but a header value with no space at all makes the gate
raise an uncaught `IndexError` (a 500 response), again without executing the
handler. -/
theorem C9_amended (verify : String → TokenVerdict) (req : AuthRequest) (α : Type) :
    (req.authorization = none →
      ∀ (handler : Nat → String → α),
      token_required verify handler req = .missingToken ∧
      gateErrorCode (token_required verify handler req) = some 401) ∧
    (∀ hv tok, req.authorization = some hv →
      (splitOnChar ' ' hv.toList).get? 1 = some tok →
      tok ≠ [] → verify (String.mk tok) = .expired →
      ∀ (handler : Nat → String → α),
      token_required verify handler req = .expiredToken ∧
      gateErrorCode (token_required verify handler req) = some 401) ∧
    (∀ hv tok, req.authorization = some hv →
      (splitOnChar ' ' hv.toList).get? 1 = some tok →
      tok ≠ [] → verify (String.mk tok) = .invalid →
      ∀ (handler : Nat → String → α),
      token_required verify handler req = .invalidToken ∧
      gateErrorCode (token_required verify handler req) = some 401) ∧
    (∀ hv, req.authorization = some hv →
      (splitOnChar ' ' hv.toList).get? 1 = some [] →
      ∀ (handler : Nat → String → α),
      token_required verify handler req = .missingToken ∧
      gateErrorCode (token_required verify handler req) = some 401) ∧
    (∀ hv, req.authorization = some hv →
      (splitOnChar ' ' hv.toList).get? 1 = none →
      ∀ (handler : Nat → String → α),
      token_required verify handler req = .crash ∧
      gateErrorCode (token_required verify handler req) = some 500) := by
  refine ⟨?_, ?_, ?_, ?_, ?_⟩
  · intro hnone handler
    unfold token_required
    rw [hnone]
    exact ⟨rfl, rfl⟩
  · intro hv tok hsome hsplit hne hver handler
    unfold token_required
    rw [hsome]
    dsimp only
    rw [hsplit]
    dsimp only
    rw [if_neg hne, hver]
    exact ⟨rfl, rfl⟩
  · intro hv tok hsome hsplit hne hver handler
    unfold token_required
    rw [hsome]
    dsimp only
    rw [hsplit]
    dsimp only
    rw [if_neg hne, hver]
    exact ⟨rfl, rfl⟩
  · intro hv hsome hsplit handler
    unfold token_required
    rw [hsome]
    dsimp only
    rw [hsplit]
    exact ⟨rfl, rfl⟩
  · intro hv hsome hsplit handler
    unfold token_required
    rw [hsome]
    dsimp only
    rw [hsplit]
    exact ⟨rfl, rfl⟩

/-- **C9, witness.** The amended theorem applied to a concrete expired
`Bearer abc` credential. -/
theorem C9_amended_witness :
    token_required (fun _ => .expired) (fun u _ => u) ⟨some "Bearer abc"⟩ =
      (.expiredToken : GateResult Nat) ∧
    gateErrorCode (token_required (fun _ => .expired) (fun u _ => u)
      ⟨some "Bearer abc"⟩) = some 401 :=
  (C9_amended (fun _ => .expired) ⟨some "Bearer abc"⟩ Nat).2.1 "Bearer abc"
    "abc".toList rfl (by decide) (by decide) rfl (fun u _ => u)

/-! ## C10 -/

/-- Replace a Python-falsy optional string field (absent or `""`) by an
absent one. -/
def dropFalsyS (s : Option String) : Option String := if truthyStr s then s else none

/-- Replace a Python-falsy optional integer field (absent or `0`) by an
absent one. -/
def dropFalsyI (n : Option Int) : Option Int := if truthyInt n then n else none

/-- The update body with every falsy field dropped: the handler's
`if new_status:` guards make a supplied falsy field indistinguishable from
an absent one. -/
def dropFalsy (req : UpdateRequest) : UpdateRequest :=
  { status := dropFalsyS req.status, booking_date := dropFalsyS req.booking_date,
    start_time := dropFalsyS req.start_time, end_time := dropFalsyS req.end_time,
    court_id := dropFalsyI req.court_id }

theorem truthyStr_dropFalsyS (s : Option String) :
    truthyStr (dropFalsyS s) = truthyStr s := by
  unfold dropFalsyS
  by_cases h : truthyStr s = true
  · rw [if_pos h]
  · have h' : truthyStr s = false := by simpa using h
    rw [h']
    rfl

theorem truthyInt_dropFalsyI (n : Option Int) :
    truthyInt (dropFalsyI n) = truthyInt n := by
  unfold dropFalsyI
  by_cases h : truthyInt n = true
  · rw [if_pos h]
  · have h' : truthyInt n = false := by simpa using h
    rw [h']
    rfl

theorem applyFields_dropFalsy (env : Int → CourtResponse) (today : Nat) (role : String)
    (req : UpdateRequest) (booking : Booking) :
    applyFields env today role (dropFalsy req) booking =
      applyFields env today role req booking := by
  by_cases h1 : truthyStr req.status = true <;>
    by_cases h2 : truthyStr req.booking_date = true <;>
      by_cases h3 : truthyStr req.start_time = true <;>
        by_cases h4 : truthyStr req.end_time = true <;>
          by_cases h5 : truthyInt req.court_id = true <;>
            simp only [applyFields, dropFalsy, dropFalsyS, dropFalsyI, h1, h2, h3, h4, h5,
              if_true, if_false, truthyStr, truthyInt, Bool.not_eq_true] at * <;>
            simp_all [applyFields]

theorem intervalFieldSupplied_dropFalsy (req : UpdateRequest) :
    intervalFieldSupplied (dropFalsy req) = intervalFieldSupplied req := by
  unfold intervalFieldSupplied dropFalsy
  dsimp only
  rw [truthyStr_dropFalsyS, truthyStr_dropFalsyS, truthyStr_dropFalsyS, truthyInt_dropFalsyI]

/-- The update endpoint cannot see the difference between a supplied falsy
field and an absent one. -/
theorem update_booking_dropFalsy (env : Int → CourtResponse) (today uid : Nat)
    (role : String) (now bid : Nat) (req : UpdateRequest) (store : List Booking) :
    update_booking env today uid role now bid (dropFalsy req) store =
      update_booking env today uid role now bid req store := by
  have ha : ∀ booking, applyUpdate env today role now bid (dropFalsy req) store booking =
      applyUpdate env today role now bid req store booking := by
    intro booking
    unfold applyUpdate
    rw [applyFields_dropFalsy, intervalFieldSupplied_dropFalsy]
  unfold update_booking
  cases hf : store.find? (fun b => b.id == bid) with
  | none => rfl
  | some booking =>
    dsimp only
    rw [ha booking]

/-- **C10.** Present-but-falsy fields at the public interface. Create: every
request with some falsy field — `court_id = 0`, an empty-string date or
time, or an absent field — is rejected with the 400 missing-fields
response, for every registry and store. Update: every request behaves
exactly like the same request with its falsy fields removed (`status = ""`,
`court_id = 0`, empty time strings are silently skipped, unvalidated); in
particular every request all of whose fields are falsy succeeds with 200,
leaving the booking unchanged except for the `updated_at` stamp. -/
theorem C10_falsy_fields (env : Int → CourtResponse) (today uid : Nat) (role : String)
    (now bid : Nat) (store : List Booking) (bk : Booking) :
    (∀ req : CreateRequest,
      (truthyInt req.court_id = false ∨ truthyStr req.booking_date = false ∨
        truthyStr req.start_time = false ∨ truthyStr req.end_time = false) →
      create_booking env today uid now store req = (.missingFields, store) ∧
      createStatusCode (create_booking env today uid now store req).1 = 400) ∧
    (∀ req : UpdateRequest,
      update_booking env today uid role now bid (dropFalsy req) store =
        update_booking env today uid role now bid req store) ∧
    (∀ req : UpdateRequest,
      truthyStr req.status = false → truthyStr req.booking_date = false →
      truthyStr req.start_time = false → truthyStr req.end_time = false →
      truthyInt req.court_id = false →
      store.find? (fun b => b.id == bid) = some bk →
      ¬(role ≠ "Administrador" ∧ bk.user_id ≠ uid) →
      update_booking env today uid role now bid req store =
        (.ok { bk with updated_at := now },
         store.map (fun c => if c.id == bid then { bk with updated_at := now } else c)) ∧
      updateStatusCode (update_booking env today uid role now bid req store).1 = 200) := by
  refine ⟨?_, ?_, ?_⟩
  · intro req hfalsy
    have hcond : (truthyInt req.court_id && truthyStr req.booking_date &&
        truthyStr req.start_time && truthyStr req.end_time) = false := by
      rcases hfalsy with h | h | h | h <;> simp [h]
    constructor
    · simp [create_booking, hcond]
    · simp [create_booking, hcond, createStatusCode]
  · intro req
    exact update_booking_dropFalsy env today uid role now bid req store
  · intro req h1 h2 h3 h4 h5 hfind hauth
    have hupd : update_booking env today uid role now bid req store =
        (.ok { bk with updated_at := now },
         store.map (fun c => if c.id == bid then { bk with updated_at := now } else c)) := by
      rw [← update_booking_dropFalsy]
      have hd : dropFalsy req = ⟨none, none, none, none, none⟩ := by
        simp [dropFalsy, dropFalsyS, dropFalsyI, h1, h2, h3, h4, h5]
      rw [hd]
      unfold update_booking
      rw [hfind]
      dsimp only
      rw [if_neg hauth]
      rfl
    exact ⟨hupd, by rw [hupd]; rfl⟩

/-- **C10, witness.** The falsy-field theorem applied concretely: a create
with an empty `start_time` string is rejected as missing; an update request
mixing a falsy status and court with a truthy date equals its
falsy-dropped form; and the all-falsy update (`status = ""`,
`start_time = ""`, `end_time = ""`, `court_id = 0`) by the owner succeeds,
changing only the timestamp. -/
theorem C10_falsy_fields_witness :
    (create_booking envOkAll 0 2 3 storeCancelled
      ⟨some 1, some "2025-06-10", some "", some "09:00", none⟩ =
      (.missingFields, storeCancelled)) ∧
    (update_booking envOkAll 0 2 "Usuario" 3 1
      (dropFalsy ⟨some "", some "2025-06-10", none, none, some 0⟩) storeCancelled =
      update_booking envOkAll 0 2 "Usuario" 3 1
        ⟨some "", some "2025-06-10", none, none, some 0⟩ storeCancelled) ∧
    update_booking envOkAll 0 2 "Usuario" 3 1
      ⟨some "", none, some "", some "", some 0⟩ storeCancelled =
      (.ok { id := 1, user_id := 2, court_id := 1, booking_date := 0,
             start_time := 480, end_time := 540, status := "Cancelada",
             created_at := 0, updated_at := 3 },
       [{ id := 1, user_id := 2, court_id := 1, booking_date := 0,
          start_time := 480, end_time := 540, status := "Cancelada",
          created_at := 0, updated_at := 3 }]) :=
  ⟨((C10_falsy_fields envOkAll 0 2 "Usuario" 3 1 storeCancelled bkCancelled).1
      ⟨some 1, some "2025-06-10", some "", some "09:00", none⟩
      (Or.inr (Or.inr (Or.inl (by decide))))).1,
   (C10_falsy_fields envOkAll 0 2 "Usuario" 3 1 storeCancelled bkCancelled).2.1
      ⟨some "", some "2025-06-10", none, none, some 0⟩,
   by
    have := ((C10_falsy_fields envOkAll 0 2 "Usuario" 3 1 storeCancelled bkCancelled).2.2
      ⟨some "", none, some "", some "", some 0⟩ (by decide) (by decide) (by decide)
      (by decide) (by decide) (by decide) (by decide)).1
    simpa [storeCancelled, bkCancelled] using this⟩

/-! ## C4 -/

/-- The slot emitted at the head of one iteration of the inner availability
loop, starting at minute `cur`. -/
def mkSlot (cur : Nat) (occ : List Booking) : Slot :=
  { start_time := cur, end_time := cur + 60,
    is_available := !slotOccupied cur (cur + 60) occ }

/-- The inner slot loop started at `480 + 60 j` produces exactly the
`14 - j` one-hour slots up to 22:00. -/
theorem slotsFrom_eq (occ : List Booking) :
    ∀ n j, j + n = 14 → slotsFrom (480 + 60 * j) occ =
      (List.range n).map (fun k => mkSlot (480 + 60 * (j + k)) occ) := by
  intro n
  induction n with
  | zero =>
    intro j hj
    rw [slotsFrom]
    have : ¬ (480 + 60 * j < 1320) := by omega
    rw [dif_neg this]
    simp
  | succ m ih =>
    intro j hj
    rw [slotsFrom]
    have hlt : 480 + 60 * j < 1320 := by omega
    rw [dif_pos hlt]
    have ih' : slotsFrom (480 + 60 * j + 60) occ =
        (List.range m).map (fun k => mkSlot (480 + 60 * (j + 1 + k)) occ) := by
      have harg : 480 + 60 * j + 60 = 480 + 60 * (j + 1) := by ring
      rw [harg]
      exact ih (j + 1) (by omega)
    rw [ih', List.range_succ_eq_map]
    simp only [List.map_cons, List.map_map]
    congr 1
    apply List.map_congr_left
    intro k hk
    simp only [Function.comp_apply, Nat.succ_eq_add_one]
    have hjk : j + 1 + k = j + (k + 1) := by omega
    rw [hjk]

/-- A day's slot list is the 14 one-hour slots 08:00–22:00. -/
theorem daySlots_eq (occ : List Booking) :
    daySlots occ = (List.range 14).map (fun k => mkSlot (480 + 60 * k) occ) := by
  have := slotsFrom_eq occ 14 0 rfl
  simpa using this

theorem range_14_eq : List.range 14 = [0, 1, 2, 3, 4, 5, 6, 7, 8, 9, 10, 11, 12, 13] := by
  decide

/-- Everything claim C4 asserts about one day's slot list: fourteen slots,
the k-th spanning `[480+60k, 480+60k+60)`, consecutive, pairwise
non-overlapping, jointly covering exactly 08:00–22:00, and a slot is
unavailable iff it strictly overlaps a Confirmed booking of the court on
that day. -/
theorem daySlots_spec (store : List Booking) (cid : Int) (d : Nat) :
    (daySlots (confirmedFor store cid d)).length = 14 ∧
    (∀ k, (hk : k < (daySlots (confirmedFor store cid d)).length) →
      ((daySlots (confirmedFor store cid d)).get ⟨k, hk⟩).start_time = 480 + 60 * k ∧
      ((daySlots (confirmedFor store cid d)).get ⟨k, hk⟩).end_time = 480 + 60 * k + 60) ∧
    List.Chain' (fun a b => a.end_time = b.start_time) (daySlots (confirmedFor store cid d)) ∧
    (daySlots (confirmedFor store cid d)).Pairwise (fun a b => a.end_time ≤ b.start_time) ∧
    ((daySlots (confirmedFor store cid d)).map Slot.start_time).head? = some 480 ∧
    ((daySlots (confirmedFor store cid d)).map Slot.end_time).getLast? = some 1320 ∧
    (∀ t, (∃ s ∈ daySlots (confirmedFor store cid d),
        s.start_time ≤ t ∧ t < s.end_time) ↔ 480 ≤ t ∧ t < 1320) ∧
    (∀ k, (hk : k < (daySlots (confirmedFor store cid d)).length) →
      (((daySlots (confirmedFor store cid d)).get ⟨k, hk⟩).is_available = false ↔
        ∃ b ∈ store, b.court_id = cid ∧ b.booking_date = d ∧ b.status = "Confirmada" ∧
          480 + 60 * k < b.end_time ∧ 480 + 60 * k + 60 > b.start_time)) := by
  have hget : ∀ k (hk : k < (daySlots (confirmedFor store cid d)).length),
      (daySlots (confirmedFor store cid d)).get ⟨k, hk⟩ =
        mkSlot (480 + 60 * k) (confirmedFor store cid d) := by
    intro k hk
    have := List.get_of_eq (daySlots_eq (confirmedFor store cid d)) ⟨k, hk⟩
    rw [this, List.get_map]
    congr 1
    simp [List.get_range]
  refine ⟨by simp [daySlots_eq], ?_, ?_, ?_, ?_, ?_, ?_, ?_⟩
  · intro k hk
    rw [hget k hk]
    exact ⟨rfl, rfl⟩
  · rw [daySlots_eq, List.chain'_map]
    have h14 : (14 : Nat) = 13 + 1 := rfl
    rw [h14, List.chain'_range_succ]
    intro m hm
    simp only [mkSlot]
    omega
  · rw [daySlots_eq, List.pairwise_map]
    apply List.Pairwise.imp ?_ (List.pairwise_lt_range 14)
    intro a b hab
    simp only [mkSlot]
    omega
  · rw [daySlots_eq, range_14_eq]
    rfl
  · rw [daySlots_eq, range_14_eq]
    rfl
  · intro t
    rw [daySlots_eq]
    simp only [List.mem_map, List.mem_range, mkSlot]
    constructor
    · rintro ⟨s, ⟨k, hk, rfl⟩, h1, h2⟩
      simp only at h1 h2
      omega
    · rintro ⟨h1, h2⟩
      exact ⟨mkSlot (480 + 60 * ((t - 480) / 60)) (confirmedFor store cid d),
        ⟨(t - 480) / 60, by omega, rfl⟩, by simp only [mkSlot]; omega,
        by simp only [mkSlot]; omega⟩
  · intro k hk
    rw [hget k hk]
    simp only [mkSlot, Bool.not_eq_false', slotOccupied, List.any_eq_true, confirmedFor,
      List.mem_filter, Bool.and_eq_true, decide_eq_true_eq]
    constructor
    · rintro ⟨b, ⟨hbs, ⟨⟨hbc, hbd⟩, hbst⟩⟩, h1, h2⟩
      exact ⟨b, hbs, hbc, hbd, hbst, h1, h2⟩
    · rintro ⟨b, hbs, hbc, hbd, hbst, h1, h2⟩
      exact ⟨b, ⟨hbs, ⟨⟨hbc, hbd⟩, hbst⟩⟩, h1, h2⟩

/-- The outer availability loop enumerates the inclusive day range. -/
theorem availLoop_eq (store : List Booking) (cid : Int) :
    ∀ n cur endD, endD + 1 - cur = n →
      availLoop store cid cur endD =
        (List.range' cur n).map (fun d => (d, daySlots (confirmedFor store cid d))) := by
  intro n
  induction n with
  | zero =>
    intro cur endD hn
    rw [availLoop]
    have : ¬ (cur ≤ endD) := by omega
    rw [dif_neg this]
    simp
  | succ m ih =>
    intro cur endD hn
    rw [availLoop]
    have hle : cur ≤ endD := by omega
    rw [dif_pos hle]
    rw [ih (cur + 1) endD (by omega)]
    rfl

/-- **C4.** For every availability query whose two dates are present and
parseable with `start_date ≤ end_date` and whose court is active, the
endpoint answers 200 with a map whose keys are exactly the calendar days of
the inclusive range, and every day maps to an ordered sequence of fourteen
60-minute slots — the k-th spanning `[08:00 + k h, 08:00 + (k+1) h)` —
consecutive, pairwise non-overlapping, jointly covering exactly the
operating window 08:00–22:00; and a slot is unavailable iff it strictly
overlaps some Confirmed booking of that court and day. -/
theorem C4_availability (env : Int → CourtResponse) (cid : Int) (q : AvailQuery)
    (store : List Booking) (sd ed : Nat)
    (hds : truthyStr q.date_start = true) (hde : truthyStr q.date_end = true)
    (hsd : parseDate (q.date_start.getD "") = some sd)
    (hed : parseDate (q.date_end.getD "") = some ed)
    (hord : sd ≤ ed) (hcourt : env cid = .ok true) :
    ∃ m, get_court_availability env cid q store = .ok m ∧
      availStatusCode (get_court_availability env cid q store) = 200 ∧
      m.map Prod.fst = List.range' sd (ed + 1 - sd) ∧
      (∀ d, d ∈ m.map Prod.fst ↔ sd ≤ d ∧ d ≤ ed) ∧
      ∀ p ∈ m,
        p.2.length = 14 ∧
        (∀ k, (hk : k < p.2.length) →
          (p.2.get ⟨k, hk⟩).start_time = 480 + 60 * k ∧
          (p.2.get ⟨k, hk⟩).end_time = 480 + 60 * k + 60) ∧
        List.Chain' (fun a b => a.end_time = b.start_time) p.2 ∧
        p.2.Pairwise (fun a b => a.end_time ≤ b.start_time) ∧
        (p.2.map Slot.start_time).head? = some 480 ∧
        (p.2.map Slot.end_time).getLast? = some 1320 ∧
        (∀ t, (∃ s ∈ p.2, s.start_time ≤ t ∧ t < s.end_time) ↔ 480 ≤ t ∧ t < 1320) ∧
        (∀ k, (hk : k < p.2.length) →
          ((p.2.get ⟨k, hk⟩).is_available = false ↔
            ∃ b ∈ store, b.court_id = cid ∧ b.booking_date = p.1 ∧
              b.status = "Confirmada" ∧
              480 + 60 * k < b.end_time ∧ 480 + 60 * k + 60 > b.start_time)) := by
  have hres : get_court_availability env cid q store =
      .ok (availLoop store cid sd ed) := by
    simp only [get_court_availability, hds, hde, hsd, hed, hcourt, Bool.and_self, if_true]
    rw [if_neg (by omega : ¬ sd > ed)]
    simp [get_court_info]
  rw [hres]
  refine ⟨availLoop store cid sd ed, rfl, rfl, ?_, ?_, ?_⟩
  · rw [availLoop_eq store cid (ed + 1 - sd) sd ed rfl, List.map_map]
    have hfst : (Prod.fst ∘ fun d => (d, daySlots (confirmedFor store cid d))) = id := rfl
    rw [hfst, List.map_id]
  · intro d
    rw [availLoop_eq store cid (ed + 1 - sd) sd ed rfl, List.map_map]
    have hfst : (Prod.fst ∘ fun d => (d, daySlots (confirmedFor store cid d))) = id := rfl
    rw [hfst, List.map_id, List.mem_range'_1]
    omega
  · intro p hp
    rw [availLoop_eq store cid (ed + 1 - sd) sd ed rfl] at hp
    rcases List.mem_map.1 hp with ⟨d0, hd0, rfl⟩
    exact daySlots_spec store cid d0

/-- **C4, witness.** The availability theorem applied to the two-day query
`2025-06-10 .. 2025-06-11` (ordinals 739411, 739412) on court 1 over the
empty store. -/
theorem C4_availability_witness :
    ∃ m, get_court_availability envOkAll 1 ⟨some "2025-06-10", some "2025-06-11"⟩ [] = .ok m ∧
      availStatusCode (get_court_availability envOkAll 1 ⟨some "2025-06-10", some "2025-06-11"⟩ []) = 200 ∧
      m.map Prod.fst = List.range' 739411 (739412 + 1 - 739411) ∧
      (∀ d, d ∈ m.map Prod.fst ↔ 739411 ≤ d ∧ d ≤ 739412) ∧
      ∀ p ∈ m,
        p.2.length = 14 ∧
        (∀ k, (hk : k < p.2.length) →
          (p.2.get ⟨k, hk⟩).start_time = 480 + 60 * k ∧
          (p.2.get ⟨k, hk⟩).end_time = 480 + 60 * k + 60) ∧
        List.Chain' (fun a b => a.end_time = b.start_time) p.2 ∧
        p.2.Pairwise (fun a b => a.end_time ≤ b.start_time) ∧
        (p.2.map Slot.start_time).head? = some 480 ∧
        (p.2.map Slot.end_time).getLast? = some 1320 ∧
        (∀ t, (∃ s ∈ p.2, s.start_time ≤ t ∧ t < s.end_time) ↔ 480 ≤ t ∧ t < 1320) ∧
        (∀ k, (hk : k < p.2.length) →
          ((p.2.get ⟨k, hk⟩).is_available = false ↔
            ∃ b ∈ ([] : List Booking), b.court_id = 1 ∧ b.booking_date = p.1 ∧
              b.status = "Confirmada" ∧
              480 + 60 * k < b.end_time ∧ 480 + 60 * k + 60 > b.start_time)) :=
  C4_availability envOkAll 1 ⟨some "2025-06-10", some "2025-06-11"⟩ [] 739411 739412
    (by decide) (by decide) (by decide) (by decide) (by decide) rfl

example : parseTime "09:30" = some 570 := by decide
example : parseTime "9:5" = some 545 := by decide
example : parseTime "24:00" = none := by decide
example : parseDate "2025-06-10" = some 739411 := by decide
example : parseDate "2025-06- 9" = some 739410 := by decide
example : parseDate "1-1-1" = none := by decide
example : parseDate "2025-02-30" = none := by decide
